import Mathlib

/-!
# Verification of the Bulk-Image-Watermark layout and spacing engine

A shallow embedding, over exact rationals, of the watermark spacing,
layout, caching and batch-processing logic of `src/app.js` (and, where a
claim cites it, the earlier revision in `src/unnamed/part_003`).
JavaScript numbers are modelled as `ℚ`; `Math.round`, `Math.ceil`,
`Math.floor` and the `%` operator are modelled exactly.  Transcendental
quantities the code obtains from `Math.cos` / `Math.sin` / `Math.sqrt`
(the pattern-angle projection and the canvas diagonal) are passed as
parameters, since every claim under verification is parametric in them.
-/

namespace Watermark

/-- JavaScript `Math.round`: round half up (`Math.round(x) = ⌊x + 1/2⌋`). -/
def jsRound (x : ℚ) : ℚ := ((⌊x + 1/2⌋ : ℤ) : ℚ)

/-- JavaScript `Math.ceil` as a rational-valued function. -/
def jsCeil (x : ℚ) : ℚ := ((⌈x⌉ : ℤ) : ℚ)

/-- JavaScript truncation toward zero (used by the `%` operator). -/
def jsTrunc (x : ℚ) : ℤ := if 0 ≤ x then ⌊x⌋ else ⌈x⌉

/-- JavaScript `%` (truncated remainder): `a % b = a - b * trunc(a / b)`. -/
def jsMod (a b : ℚ) : ℚ := a - b * ((jsTrunc (a / b) : ℤ) : ℚ)

/-!
## SpacingConverter — `convertSpacingToPixels`, `src/app.js` lines 726-762

`convertSpacingToPixels(uiValue, baseSize, canvasScale, isVertical)`:
* `actualWatermarkSize = baseSize * canvasScale`;
* `uiValue <= 0` returns `actualWatermarkSize` (the "touching" case);
* otherwise `minGap = max(30*canvasScale, actualWatermarkSize*0.5)`,
  `maxGap = max(actualWatermarkSize*3, 500*canvasScale)`, linear
  interpolation of the gap over `uiValue ∈ [1,20]`, and
  `Math.round(actualWatermarkSize + gapSize)`.
The `isVertical` flag is received but used only in a `console.log`.
-/

/-- The minimum gap of the `app.js` converter (line 743):
`Math.max(30 * canvasScale, actualWatermarkSize * 0.5)`. -/
def minGap (canvasScale actualWatermarkSize : ℚ) : ℚ :=
  max (30 * canvasScale) (actualWatermarkSize * (1/2))

/-- Function `convertSpacingToPixels` of `src/app.js` (lines 726-762). -/
def convertSpacingToPixels (uiValue baseSize canvasScale : ℚ)
    ( isVertical : Bool) : ℚ :=
  let actualWatermarkSize := baseSize * canvasScale
  if uiValue ≤ 0 then
    actualWatermarkSize
  else
    let mg := minGap canvasScale actualWatermarkSize
    let maxGap := max (actualWatermarkSize * 3) (500 * canvasScale)
    let gapRange := maxGap - mg
    let gapSize := mg + ((uiValue - 1) / 19) * gapRange
    jsRound (actualWatermarkSize + gapSize)

/-!
## The earlier revision's converter — `src/unnamed/part_003` lines 577-602

That revision computes a per-axis minimum buffer
(`isVertical ? max(20, actual*0.3) : max(10, actual*0.15)`) before an
exponential interpolation.  Only the buffer is needed by the claims.
-/

/-- The minimum buffer of the `part_003` revision's `convertSpacingToPixels`
(lines 587-589): `isVertical ? Math.max(20, actual*0.3)
: Math.max(10, actual*0.15)`. -/
def minBufferRev (actualWatermarkSize : ℚ) ( isVertical : Bool) : ℚ :=
  if isVertical then max 20 (actualWatermarkSize * (3/10))
  else max 10 (actualWatermarkSize * (15/100))

/-!
## computePatternSpacing — `src/app.js` lines 2055-2192 (spacing part)

With a cache present, `baseX = cache.contentW`, `baseY = cache.contentH`,
`canvasScaleX = canvasWidth/800`, `canvasScaleY = canvasHeight/800`, and
the per-axis pixel spacings are
`convertSpacingToPixels(uiSpacingX, baseX, canvasScaleX, false)` and
`convertSpacingToPixels(uiSpacingY, baseY, canvasScaleY, true)`.
-/

/-- X-axis pixel spacing computed by `computePatternSpacing`
(`src/app.js` lines 2145, 2149) from the cache content width. -/
def computePatternSpacingX (contentW canvasWidth uiSpacingX : ℚ) : ℚ :=
  convertSpacingToPixels uiSpacingX contentW (canvasWidth / 800) false

/-- Y-axis pixel spacing computed by `computePatternSpacing`
(`src/app.js` lines 2146, 2150) from the cache content height. -/
def computePatternSpacingY (contentH canvasHeight uiSpacingY : ℚ) : ℚ :=
  convertSpacingToPixels uiSpacingY contentH (canvasHeight / 800) true

/-- Both axes of `computePatternSpacing`, as returned (`{x, y}`). -/
def computePatternSpacing (contentW contentH canvasWidth canvasHeight
    uiSpacingX uiSpacingY : ℚ) : ℚ × ℚ :=
  (computePatternSpacingX contentW canvasWidth uiSpacingX,
   computePatternSpacingY contentH canvasHeight uiSpacingY)

/-!
## FootprintEstimator — the three call sites

Three places estimate the watermark footprint `(width, height)`:
* `buildWatermarkCache` (`src/app.js` lines 2465-2498);
* `computePatternSpacing` (`src/app.js` lines 2056-2096);
* `applySingleWatermark`'s corner fallback (`src/app.js` lines 1899-1917).
The text branches depend on `ctx.measureText`, an external capability;
its result at the scaled font is passed as the `measured` parameter
(JavaScript `metrics.width || fallback` uses the fallback when the
measured width is `0`).
-/

/-- Text footprint estimate of `buildWatermarkCache`
(`src/app.js` lines 2468-2479). -/
def buildCacheEstText (fontSizeSetting canvasWidth measured : ℚ)
    (text : String) : ℚ × ℚ :=
  let fontSize := max 12 (fontSizeSetting * canvasWidth / 800)
  let estW := if measured = 0 then
      fontSize * (if text = "" then 4 else (text.length : ℚ) * (6/10))
    else measured
  (estW, jsCeil (fontSize * (11/10)))

/-- Logo footprint estimate of `buildWatermarkCache`
(`src/app.js` lines 2480-2497). -/
def buildCacheEstLogo (canvasWidth canvasHeight imgW imgH scale : ℚ) :
    ℚ × ℚ :=
  let maxSize := min canvasWidth canvasHeight * scale
  let imgRatio := max (min (maxSize / max 1 imgW) (maxSize / max 1 imgH))
    (2/100)
  let estW := jsCeil (imgW * imgRatio)
  let estH := jsCeil (imgH * imgRatio)
  (if estW < 6 then 6 else estW, if estH < 6 then 6 else estH)

/-- Text footprint estimate of `computePatternSpacing`
(`src/app.js` lines 2065-2075); note the un-ceiled height. -/
def computeSpacingEstText (fontSizeSetting canvasWidth measured : ℚ)
    (text : String) : ℚ × ℚ :=
  let fontSize := max 12 (fontSizeSetting * canvasWidth / 800)
  let estW := if measured = 0 then
      fontSize * (if text = "" then 4 else (text.length : ℚ) * (6/10))
    else measured
  (estW, fontSize * (11/10))

/-- Logo footprint estimate of `computePatternSpacing`
(`src/app.js` lines 2076-2096). -/
def computeSpacingEstLogo (canvasWidth canvasHeight imgW imgH scale : ℚ) :
    ℚ × ℚ :=
  let maxSize := min canvasWidth canvasHeight * scale
  let imgRatio := max (min (maxSize / max 1 imgW) (maxSize / max 1 imgH))
    (2/100)
  let estW := jsCeil (imgW * imgRatio)
  let estH := jsCeil (imgH * imgRatio)
  (if estW < 6 then 6 else estW, if estH < 6 then 6 else estH)

/-- Text footprint estimate of `applySingleWatermark`'s corner fallback
(`src/app.js` lines 1903-1910); note the `max(8, …)` font floor. -/
def singleEstText (fontSizeSetting canvasWidth measured : ℚ)
    (text : String) : ℚ × ℚ :=
  let tmpFontSize := max 8 (fontSizeSetting * canvasWidth / 800)
  let w := if measured = 0 then
      tmpFontSize * (if text = "" then 4 else (text.length : ℚ) * (6/10))
    else measured
  (w, jsCeil (tmpFontSize * (11/10)))

/-- Logo footprint estimate of `applySingleWatermark`'s corner fallback
(`src/app.js` lines 1911-1916): scales the raw image dimensions by the
scale fraction directly. -/
def singleEstLogo (imgW imgH scale : ℚ) : ℚ × ℚ :=
  (imgW * scale, imgH * scale)

/-!
## RenderCache geometry — `buildWatermarkCache`, `src/app.js` 2500-2547
-/

/-- The geometric part of a `buildWatermarkCache` cache entry:
padded bitmap size, content size, and padding. -/
structure WCache where
  w : ℚ
  h : ℚ
  contentW : ℚ
  contentH : ℚ
  pad : ℚ
deriving DecidableEq, Repr

/-- Cache-entry geometry built by `buildWatermarkCache`
(`src/app.js` lines 2500-2547) from the footprint estimate:
`pad = ceil(max(estW, estH) * 0.15) + 4`, bitmap size
`ceil(est + pad*2)` per axis, content size `ceil(est)`. -/
def buildCacheDims (estW estH : ℚ) : WCache :=
  let pad := jsCeil (max estW estH * (15/100)) + 4
  { w := jsCeil (estW + pad * 2)
    h := jsCeil (estH + pad * 2)
    contentW := jsCeil estW
    contentH := jsCeil estH
    pad := pad }

/-- Width of the content sub-rectangle blitted per tile by
`drawRotatedWatermark`'s cache path (`src/app.js` lines 2303-2309):
`max(1, round(cache.contentW || cache.w))` — the drawn extent. -/
def drawnSrcW (c : WCache) : ℚ :=
  max 1 (jsRound (if c.contentW = 0 then c.w else c.contentW))

/-- Height of the content sub-rectangle blitted per tile by
`drawRotatedWatermark`'s cache path (`src/app.js` lines 2303-2309). -/
def drawnSrcH (c : WCache) : ℚ :=
  max 1 (jsRound (if c.contentH = 0 then c.h else c.contentH))

/-!
## Single-mode corner placement — `applySingleWatermark`,
`src/app.js` lines 1889-1935

With a corner/edge anchor (fraction ≤ 0.2 or ≥ 0.8 on an axis) the
placement center is computed from the cached footprint `cache.w/h`
(the padded bitmap size), falling back to an estimate when absent,
then shifted by the fine offsets.
-/

/-- Placement center of `applySingleWatermark`'s corner branch
(`src/app.js` lines 1897-1933).  `estW`/`estH` are the fallback
footprint-estimate outputs (`singleEstText` / `singleEstLogo`). -/
def singleCornerCenter (cache : Option WCache)
    (estW estH canvasWidth canvasHeight px py offsetX offsetY : ℚ) :
    ℚ × ℚ :=
  let w0 := match cache with | some c => c.w | none => 0
  let h0 := match cache with | some c => c.h | none => 0
  let w := if w0 = 0 ∨ h0 = 0 then estW else w0
  let h := if w0 = 0 ∨ h0 = 0 then estH else h0
  let x := if px ≤ 1/5 then w / 2
    else if px ≥ 4/5 then canvasWidth - w / 2
    else canvasWidth / 2
  let y := if py ≤ 1/5 then h / 2
    else if py ≥ 4/5 then canvasHeight - h / 2
    else canvasHeight / 2
  (x + offsetX * canvasWidth / 800, y + offsetY * canvasHeight / 600)

/-!
## Logo scale fraction — `getLogoScaleFraction`, `src/app.js` 2569-2581
-/

/-- A JavaScript number as produced by `Number(…)`: finite (rational
model) or one of the non-finite values. -/
inductive JSNum where
  | num (x : ℚ)
  | nan
  | posInf
  | negInf
deriving DecidableEq, Repr

/-- JavaScript `Number.isFinite` on the `JSNum` model. -/
def JSNum.isFinite : JSNum → Bool
  | .num _ => true
  | _ => false

/-- Function `getLogoScaleFraction` (`src/app.js` lines 2569-2581): replace
non-finite or non-positive values by `20`, clamp to `[1, 500]`,
divide by `100`. -/
def getLogoScaleFraction (logoScale : JSNum) : ℚ :=
  let s : ℚ := match logoScale with
    | .num x => if x ≤ 0 then 20 else x
    | _ => 20
  let s := max 1 (min 500 s)
  s / 100

/-!
## RenderCache fingerprint — `buildWatermarkCache`, `src/app.js` 2403-2454
-/

/-- Text-effect settings (`watermarkSettings.textEffects`,
`src/app.js` lines 663-680). -/
structure TextEffects where
  shadow : Bool
  shadowColor : String
  shadowBlur : ℚ
  shadowOffsetX : ℚ
  shadowOffsetY : ℚ
  outline : Bool
  outlineColor : String
  outlineThickness : ℚ
  glow : Bool
  glowColor : String
  glowBlur : ℚ
deriving DecidableEq, Repr

/-- The settings fields read by `buildWatermarkCache`'s key generation
and by `applyTextEffects` (`this.watermarkSettings`,
`src/app.js` lines 631-684; logo identity per lines 2435-2443). -/
structure WatermarkSettings where
  type : String
  text : String
  fontSize : ℚ
  fontFamily : String
  logoScale : JSNum
  textColor : String
  overlayEffect : String
  textEffects : TextEffects
  hasLogo : Bool
  logoW : ℚ
  logoH : ℚ
deriving DecidableEq, Repr

/-- Canvas-size quantization of `buildWatermarkCache`
(`src/app.js` lines 2409-2411): `max(1, round(d / 50) * 50)`. -/
def quantize50 (d : ℚ) : ℚ := max 1 (jsRound (d / 50) * 50)

/-- The fields of the `keyObj` serialized (`JSON.stringify`) into the
cache key by `buildWatermarkCache` (`src/app.js` lines 2417-2444).
Equality of `CacheKey` values models equality of the serialized keys. -/
structure CacheKey where
  type : String
  text : String
  fontSize : ℚ
  fontFamily : String
  logoScale : JSNum
  textColor : String
  overlayEffect : String
  qW : ℚ
  qH : ℚ
  canvasWidth : ℚ
  canvasHeight : ℚ
  logoW : Option ℚ
  logoH : Option ℚ
deriving DecidableEq, Repr

/-- Cache fingerprint built by `buildWatermarkCache`
(`src/app.js` lines 2409-2444). -/
def buildCacheKey (s : WatermarkSettings) (canvasWidth canvasHeight : ℚ) :
    CacheKey :=
  { type := s.type
    text := s.text
    fontSize := s.fontSize
    fontFamily := s.fontFamily
    logoScale := s.logoScale
    textColor := s.textColor
    overlayEffect := s.overlayEffect
    qW := quantize50 canvasWidth
    qH := quantize50 canvasHeight
    canvasWidth := canvasWidth
    canvasHeight := canvasHeight
    logoW := if s.type = "logo" ∧ s.hasLogo then some s.logoW else none
    logoH := if s.type = "logo" ∧ s.hasLogo then some s.logoH else none }

/-- Drawing-context state set by `applyTextEffects` for text watermarks
(`src/app.js` lines 2659-2704): shadow parameters and fill style.  This
state is applied when the cached bitmap is rendered, so it is part of
the cached appearance. -/
structure CtxEffectState where
  shadowColor : String
  shadowBlur : ℚ
  shadowOffsetX : ℚ
  shadowOffsetY : ℚ
  fillStyle : String
deriving DecidableEq, Repr

/-- Function `applyTextEffects` for `type = "text"` (`src/app.js` lines
2681-2703): reset shadow state, then apply shadow and glow settings
(JavaScript `||` defaults replace `0`/empty values). -/
def applyTextEffectsState (textColor : String) (te : TextEffects) :
    CtxEffectState :=
  let st : CtxEffectState :=
    { shadowColor := "transparent", shadowBlur := 0
      shadowOffsetX := 0, shadowOffsetY := 0, fillStyle := textColor }
  let st := if te.shadow then
      { st with
        shadowColor := if te.shadowColor = "" then "rgba(0,0,0,0.5)"
          else te.shadowColor
        shadowBlur := if te.shadowBlur = 0 then 4 else te.shadowBlur
        shadowOffsetX := if te.shadowOffsetX = 0 then 2 else te.shadowOffsetX
        shadowOffsetY := if te.shadowOffsetY = 0 then 2 else te.shadowOffsetY }
    else st
  let st := if te.glow then
      { st with
        shadowColor := if te.glowColor = "" then textColor else te.glowColor
        shadowBlur := if te.glowBlur = 0 then 12 else te.glowBlur }
    else st
  st

/-!
## LayoutEngine — `applyTiledPattern`, `src/app.js` lines 1946-2041

The placement lists below are the straight-line embedding of the two
nested loops: diagonal (angle magnitude > 1°) and orthogonal grid.
`cosA`/`sinA` stand for `Math.cos(rad)`/`Math.sin(rad)` and
`tiledExtent` for `Math.sqrt(w² + h²)`; each is passed as a parameter.
-/

/-- Constant `maxTilesPerAxis` (`src/app.js` line 1972): hard per-axis cap. -/
def maxTilesPerAxis : ℤ := 120

/-- Per-axis tile count of the diagonal layout (`src/app.js` lines
1983-1993): `ceil(tiledExtent / spacing) + 2`, clamped to the cap. -/
def diagCount (tiledExtent spacing : ℚ) : ℤ :=
  let c := ⌈tiledExtent / spacing⌉ + 2
  if c > maxTilesPerAxis then maxTilesPerAxis else c

/-- Placements emitted by the diagonal branch of `applyTiledPattern`
(`src/app.js` lines 1995-2013): indices `i ∈ [-countX, countX]`,
`j ∈ [-countY, countY]`, rotated-frame projection, and the extended
viewport filter. -/
def diagonalPlacements (dx dy cosA sinA canvasWidth canvasHeight
    tiledExtent : ℚ) : List (ℚ × ℚ) :=
  let countX := diagCount tiledExtent dx
  let countY := diagCount tiledExtent dy
  let pad := max dx dy
  (List.range (2 * countX + 1).toNat).flatMap fun (ii : ℕ) =>
    (List.range (2 * countY + 1).toNat).filterMap fun (jj : ℕ) =>
      let i : ℚ := ((ii : ℤ) - countX : ℤ)
      let j : ℚ := ((jj : ℤ) - countY : ℤ)
      let x := i * dx * cosA - j * dy * sinA + canvasWidth / 2
      let y := i * dx * sinA + j * dy * cosA + canvasHeight / 2
      if -pad < x ∧ x < canvasWidth + pad ∧ -pad < y ∧ y < canvasHeight + pad
      then some (x, y) else none

/-- Per-axis tile count of the grid layout (`src/app.js` lines
2020-2021): `min(ceil((canvasDim + spacing) / spacing) + 2, cap)`. -/
def gridCount (canvasDim spacing : ℚ) : ℤ :=
  min (⌈(canvasDim + spacing) / spacing⌉ + 2) maxTilesPerAxis

/-- Placements emitted by the grid branch of `applyTiledPattern`
(`src/app.js` lines 2016-2039): half-spacing start offset, indices
`0 ≤ ix < countX`, `0 ≤ iy < countY`, and the viewport filter. -/
def gridPlacements (sx sy canvasWidth canvasHeight : ℚ) : List (ℚ × ℚ) :=
  let startX := jsMod (sx / 2) sx
  let startY := jsMod (sy / 2) sy
  let countX := gridCount canvasWidth sx
  let countY := gridCount canvasHeight sy
  (List.range countX.toNat).flatMap fun (ix : ℕ) =>
    (List.range countY.toNat).filterMap fun (iy : ℕ) =>
      let x := startX + (ix : ℚ) * sx
      let y := startY + (iy : ℚ) * sy
      if -sx < x ∧ x < canvasWidth + sx ∧ -sy < y ∧ y < canvasHeight + sy
      then some (x, y) else none

/-!
## Batch processing — `processAllImages`, `src/app.js` lines 2728-2781

The per-image work (`this.processImage`) is external rendering; its
outcome per image is modelled as `Except String α` (`α` the processed
payload).  The loop body (lines 2761-2781) pushes the result on
success and, on failure, logs and continues with the next image.
-/

/-- The sequential loop of `processAllImages` (`src/app.js` lines
2755-2781): starting from an empty `processedImages` list, process
every image in order; a success is appended, a failure is skipped and
the loop continues. -/
def processAllImages {α : Type} (results : List (String × Except String α)) :
    List α :=
  results.foldl
    (fun processedImages r =>
      match r.2 with
      | .ok d => processedImages ++ [d]
      | .error _ => processedImages)
    []

/-!
## Theorems
-/

/-- Helper: the interpolation range of the `app.js` converter is
nonnegative — `minGap ≤ maxGap` for nonnegative size and scale. -/
lemma minGap_le_maxGap (s a : ℚ) (hs : 0 ≤ s) (ha : 0 ≤ a) :
    minGap s a ≤ max (a * 3) (500 * s) := by
  unfold minGap
  apply max_le
  · exact le_max_of_le_right (by linarith)
  · exact le_max_of_le_left (by linarith)

/-- C1 (counterexample): with cache content width 100 on a 1600-wide
canvas and `uiSpacingX = 0`, `computePatternSpacing` yields 200, not
the content dimension 100 — the "touching" spacing is additionally
multiplied by the canvas scale factor. -/
theorem touching_spacing_counterexample :
    computePatternSpacingX 100 1600 0 = 200 ∧
    ¬ computePatternSpacingX 100 1600 0 = 100 := by
  unfold computePatternSpacingX convertSpacingToPixels
  norm_num

/-- C1 (amended): at `uiSpacing = 0` the computed center-to-center
spacing equals the cache content dimension times the canvas scale
factor (`canvasDimension / 800`) on each axis; it equals the content
dimension exactly when the canvas dimension is 800 (scale 1). -/
theorem touching_spacing_scaled
    (contentW contentH canvasWidth canvasHeight : ℚ) :
    computePatternSpacing contentW contentH canvasWidth canvasHeight 0 0
      = (contentW * (canvasWidth / 800), contentH * (canvasHeight / 800))
    ∧ computePatternSpacing contentW contentH 800 800 0 0
      = (contentW, contentH) := by
  unfold computePatternSpacing computePatternSpacingX computePatternSpacingY
    convertSpacingToPixels
  norm_num

/-- C4 (counterexample): non-decreasing monotonicity over
`uiValue ∈ {0,…,20}` fails at a sub-pixel footprint: with
`baseSize = 100` and `canvasScale = 1/800`, the value at `uiValue = 1`
rounds to 0, strictly below the value `1/8` at `uiValue = 0`. -/
theorem spacing_monotonicity_counterexample :
    convertSpacingToPixels 1 100 (1/800) false
      < convertSpacingToPixels 0 100 (1/800) false := by
  unfold convertSpacingToPixels minGap jsRound
  norm_num [Int.floor_eq_iff]

/-- C4 (amended): for fixed nonnegative `baseSize` and `canvasScale`
whose product (the scaled watermark size) is at least one pixel,
`convertSpacingToPixels` is non-decreasing in `uiValue` over the
integers 0 through 20 for either axis flag. -/
theorem spacing_monotone (baseSize canvasScale : ℚ) (vert : Bool)
    (u v : ℕ) (hb : 0 ≤ baseSize) (hs : 0 ≤ canvasScale)
    (ha : 1 ≤ baseSize * canvasScale) (huv : u ≤ v) (hv : v ≤ 20) :
    convertSpacingToPixels u baseSize canvasScale vert
      ≤ convertSpacingToPixels v baseSize canvasScale vert := by
  have ha0 : (0:ℚ) ≤ baseSize * canvasScale := by linarith
  have hrange := minGap_le_maxGap canvasScale (baseSize * canvasScale) hs ha0
  have hmg : baseSize * canvasScale * (1/2) ≤ minGap canvasScale (baseSize * canvasScale) :=
    le_max_right _ _
  unfold convertSpacingToPixels jsRound
  rcases Nat.eq_zero_or_pos u with hu | hu
  · subst hu
    rcases Nat.eq_zero_or_pos v with hv0 | hv0
    · subst hv0; simp
    · have hvpos : ¬ ((v:ℚ) ≤ 0) := by
        push_neg; exact_mod_cast hv0
      simp only [Nat.cast_zero, le_refl, if_true, hvpos, if_false]
      -- goal: actual ≤ round(actual + gapSize v)
      set a := baseSize * canvasScale with hadef
      set mg := minGap canvasScale a with hmgdef
      set mx := max (a * 3) (500 * canvasScale) with hmxdef
      have hgap : (1:ℚ)/2 ≤ mg + (((v:ℚ) - 1) / 19) * (mx - mg) := by
        have h1 : (1:ℚ)/2 ≤ mg := by
          calc (1:ℚ)/2 = 1 * (1/2) := by ring
          _ ≤ a * (1/2) := by nlinarith
          _ ≤ mg := hmg
        have h2 : 0 ≤ (((v:ℚ) - 1) / 19) * (mx - mg) := by
          apply mul_nonneg
          · have : (1:ℚ) ≤ (v:ℚ) := by exact_mod_cast hv0
            linarith
          · linarith
        linarith
      have hfl : a + 1/2 ≤ a + (mg + (((v:ℚ) - 1) / 19) * (mx - mg)) + 1/2 - 1/2 + 1/2 := by
        linarith
      have := Int.sub_one_lt_floor (a + (mg + (((v:ℚ) - 1) / 19) * (mx - mg)) + 1/2)
      have hlt : a < ((⌊a + (mg + (((v:ℚ) - 1) / 19) * (mx - mg)) + 1/2⌋ : ℤ) : ℚ) := by
        have h3 : a + (mg + (((v:ℚ) - 1) / 19) * (mx - mg)) + 1/2 - 1
            = a + (mg + (((v:ℚ) - 1) / 19) * (mx - mg)) - 1/2 := by ring
        have h4 : a ≤ a + (mg + (((v:ℚ) - 1) / 19) * (mx - mg)) - 1/2 := by linarith
        linarith [Int.sub_one_lt_floor (a + (mg + (((v:ℚ) - 1) / 19) * (mx - mg)) + 1/2)]
      exact le_of_lt hlt
  · have hupos : ¬ ((u:ℚ) ≤ 0) := by push_neg; exact_mod_cast hu
    have hvpos : ¬ ((v:ℚ) ≤ 0) := by
      push_neg
      have : (0:ℕ) < v := lt_of_lt_of_le hu huv
      exact_mod_cast this
    simp only [hupos, hvpos, if_false]
    set a := baseSize * canvasScale with hadef
    set mg := minGap canvasScale a with hmgdef
    set mx := max (a * 3) (500 * canvasScale) with hmxdef
    have hmono : a + (mg + (((u:ℚ) - 1) / 19) * (mx - mg))
        ≤ a + (mg + (((v:ℚ) - 1) / 19) * (mx - mg)) := by
      have huv' : ((u:ℚ)) ≤ ((v:ℚ)) := by exact_mod_cast huv
      have : (((u:ℚ) - 1) / 19) * (mx - mg) ≤ (((v:ℚ) - 1) / 19) * (mx - mg) := by
        apply mul_le_mul_of_nonneg_right _ (by linarith)
        linarith
      linarith
    have hfl : ⌊a + (mg + (((u:ℚ) - 1) / 19) * (mx - mg)) + 1/2⌋
        ≤ ⌊a + (mg + (((v:ℚ) - 1) / 19) * (mx - mg)) + 1/2⌋ :=
      Int.floor_le_floor (by linarith)
    exact_mod_cast hfl

/-- C4 (witness): the monotonicity theorem at `baseSize = 100`,
`canvasScale = 1`, `uiValue` 3 ≤ 7. -/
theorem spacing_monotone_witness :
    convertSpacingToPixels ((3:ℕ):ℚ) 100 1 false
      ≤ convertSpacingToPixels ((7:ℕ):ℚ) 100 1 false :=
  spacing_monotone 100 1 false 3 7 (by norm_num) (by norm_num)
    (by norm_num) (by norm_num) (by norm_num)

/-- C8 (counterexample): in the `src/app.js` revision the
`convertSpacingToPixels` result and its minimum gap are identical for
the vertical and horizontal flags — the vertical axis gets no larger
buffer than the horizontal one. -/
theorem vertical_buffer_counterexample :
    convertSpacingToPixels 1 100 1 true = convertSpacingToPixels 1 100 1 false
    ∧ ¬ minGap 1 (100 * 1) < minGap 1 (100 * 1) :=
  ⟨rfl, lt_irrefl _⟩

/-- C8 (amended): in the `src/unnamed/part_003` revision the vertical
minimum buffer `max(20, 0.3·actual)` strictly exceeds the horizontal
`max(10, 0.15·actual)` for every nonnegative actual size; the
`src/app.js` revision ignores the flag entirely. -/
theorem vertical_buffer_rev (a : ℚ) (ha : 0 ≤ a) :
    minBufferRev a false < minBufferRev a true := by
  unfold minBufferRev
  simp only [Bool.false_eq_true, if_false, if_true]
  rcases le_or_lt (a * (15/100)) 10 with h | h
  · calc max 10 (a * (15/100)) = 10 := max_eq_left h
    _ < 20 := by norm_num
    _ ≤ max 20 (a * (3/10)) := le_max_left _ _
  · calc max 10 (a * (15/100)) = a * (15/100) := max_eq_right h.le
    _ < a * (3/10) := by nlinarith
    _ ≤ max 20 (a * (3/10)) := le_max_right _ _

/-- C8 (witness): the amended vertical-buffer theorem at
`actual = 100`. -/
theorem vertical_buffer_rev_witness :
    minBufferRev 100 false < minBufferRev 100 true :=
  vertical_buffer_rev 100 (by norm_num)

/-- C10: `getLogoScaleFraction` is total and always returns a value in
`[0.01, 5]`; non-finite or non-positive inputs yield `0.2`, and
positive finite inputs are clamped to `[1, 500]` and divided by 100. -/
theorem logo_scale_total (v : JSNum) :
    ((1:ℚ)/100 ≤ getLogoScaleFraction v ∧ getLogoScaleFraction v ≤ 5)
    ∧ (v.isFinite = false → getLogoScaleFraction v = 1/5)
    ∧ (∀ x : ℚ, x ≤ 0 → getLogoScaleFraction (JSNum.num x) = 1/5)
    ∧ (∀ x : ℚ, 0 < x →
        getLogoScaleFraction (JSNum.num x) = max 1 (min 500 x) / 100) := by
  refine ⟨?_, ?_, ?_, ?_⟩
  · cases v with
    | num x =>
      unfold getLogoScaleFraction
      rcases le_or_lt x 0 with hx | hx
      · simp only [hx, if_true]; norm_num
      · dsimp only
        rw [if_neg (not_le.mpr hx)]
        constructor
        · have h1 : (1:ℚ) ≤ max 1 (min 500 x) := le_max_left _ _
          linarith
        · have h2 : max 1 (min 500 x) ≤ 500 :=
            max_le (by norm_num) (min_le_left _ _)
          linarith
    | nan => unfold getLogoScaleFraction; norm_num
    | posInf => unfold getLogoScaleFraction; norm_num
    | negInf => unfold getLogoScaleFraction; norm_num
  · intro hf
    cases v with
    | num x => simp [JSNum.isFinite] at hf
    | nan => unfold getLogoScaleFraction; norm_num
    | posInf => unfold getLogoScaleFraction; norm_num
    | negInf => unfold getLogoScaleFraction; norm_num
  · intro x hx
    unfold getLogoScaleFraction
    simp only [hx, if_true]
    norm_num
  · intro x hx
    unfold getLogoScaleFraction
    dsimp only
    rw [if_neg (not_le.mpr hx)]

/-- C10 (witness): the totality theorem applied at `NaN`. -/
theorem logo_scale_total_witness :
    getLogoScaleFraction JSNum.nan = 1/5 :=
  (logo_scale_total JSNum.nan).2.1 rfl

/-- Helper: the cache geometry at the text estimate `(100, 40)`:
padding 19, bitmap 138×78, content 100×40. -/
lemma buildCacheDims_100_40 :
    buildCacheDims 100 40 = ⟨138, 78, 100, 40, 19⟩ := by
  unfold buildCacheDims jsCeil
  norm_num [WCache.mk.injEq]

/-- C6 (counterexample): Single mode, top-left anchor (0.06, 0.06),
zero offsets, canvas 800×600, cached footprint from estimate
`(100, 40)`: the placement center lands at `x = 69` — half the padded
bitmap width 138 — while half the drawn content extent is `50`.  The
drawn watermark edge sits `pad = 19` pixels inside the canvas edge,
not flush. -/
theorem corner_flush_counterexample :
    (singleCornerCenter (some (buildCacheDims 100 40)) 100 40 800 600
        (6/100) (6/100) 0 0).1 = 69
    ∧ drawnSrcW (buildCacheDims 100 40) = 100
    ∧ ¬ (singleCornerCenter (some (buildCacheDims 100 40)) 100 40 800 600
        (6/100) (6/100) 0 0).1 = drawnSrcW (buildCacheDims 100 40) / 2 := by
  rw [buildCacheDims_100_40]
  unfold singleCornerCenter drawnSrcW jsRound
  norm_num [Int.floor_eq_iff]

/-- C6 (amended): with a cache present, the corner-anchored placement
center sits at half the cache's *padded* bitmap dimension from the
near (resp. far) canvas edge; since the padded width is the content
width plus twice the padding, the drawn content sits `pad` pixels in
from the edge rather than flush. -/
theorem corner_flush_padded (c : WCache)
    (estW estH canvasWidth canvasHeight px py : ℚ)
    (hw : c.w ≠ 0) (hh : c.h ≠ 0) :
    (px ≤ 1/5 →
      (singleCornerCenter (some c) estW estH canvasWidth canvasHeight
        px py 0 0).1 = c.w / 2)
    ∧ (px ≥ 4/5 →
      (singleCornerCenter (some c) estW estH canvasWidth canvasHeight
        px py 0 0).1 = canvasWidth - c.w / 2)
    ∧ (∀ eW eH : ℚ, (buildCacheDims eW eH).w
        = (buildCacheDims eW eH).contentW + 2 * (buildCacheDims eW eH).pad) := by
  have hcase : ¬ (c.w = 0 ∨ c.h = 0) := by
    rintro (h | h) <;> [exact hw h; exact hh h]
  refine ⟨?_, ?_, ?_⟩
  · intro hpx
    unfold singleCornerCenter
    dsimp only
    rw [if_neg hcase, if_pos hpx]
    ring
  · intro hpx
    have hnot : ¬ px ≤ 1/5 := by linarith
    unfold singleCornerCenter
    dsimp only
    rw [if_neg hcase, if_neg hnot, if_pos hpx]
    ring
  · intro eW eH
    unfold buildCacheDims jsCeil
    dsimp only
    have hcast : eW + (((⌈max eW eH * (15/100)⌉ : ℤ) : ℚ) + 4) * 2
        = eW + ((2 * ⌈max eW eH * (15/100)⌉ + 8 : ℤ) : ℚ) := by
      push_cast; ring
    rw [hcast, Int.ceil_add_int]
    push_cast; ring

/-- C6 (witness): the amended corner theorem at the concrete top-left
example (cache from estimate `(100, 40)`, canvas 800×600). -/
theorem corner_flush_padded_witness :
    (singleCornerCenter (some (buildCacheDims 100 40)) 100 40 800 600
      (6/100) (6/100) 0 0).1 = (buildCacheDims 100 40).w / 2 :=
  (corner_flush_padded (buildCacheDims 100 40) 100 40 800 600
      (6/100) (6/100)
      (by rw [buildCacheDims_100_40]; norm_num)
      (by rw [buildCacheDims_100_40]; norm_num)).1
    (by norm_num)

/-- C7: the three footprint estimators are *not* identical.  At
`fontSize = 24`, canvas 800×600, measured text width 100, the cache
estimator ceils the text height (27) while the spacing estimator does
not (26.4); at `fontSize = 6` the single-mode estimator floors the
font at 8 instead of 12; for a 100×50 logo at scale 0.2 the
single-mode estimator returns `(20, 10)` against the cache/spacing
`(120, 60)`.  Only the cache and spacing logo estimates agree. -/
theorem footprint_divergence :
    computeSpacingEstText 24 800 100 "Test" ≠ buildCacheEstText 24 800 100 "Test"
    ∧ singleEstText 6 800 100 "Test" ≠ buildCacheEstText 6 800 100 "Test"
    ∧ singleEstLogo 100 50 (1/5) ≠ buildCacheEstLogo 800 600 100 50 (1/5)
    ∧ buildCacheEstLogo 800 600 100 50 (1/5)
      = computeSpacingEstLogo 800 600 100 50 (1/5) := by
  refine ⟨?_, ?_, ?_, rfl⟩
  · have h27 : (⌈(132:ℚ)/5⌉ : ℤ) = 27 := by norm_num [Int.ceil_eq_iff]
    unfold computeSpacingEstText buildCacheEstText jsCeil
    norm_num [Prod.ext_iff, h27]
  · have h9 : (⌈(44:ℚ)/5⌉ : ℤ) = 9 := by norm_num [Int.ceil_eq_iff]
    have h14 : (⌈(66:ℚ)/5⌉ : ℤ) = 14 := by norm_num [Int.ceil_eq_iff]
    unfold singleEstText buildCacheEstText jsCeil
    norm_num [Prod.ext_iff, h9, h14]
  · unfold singleEstLogo buildCacheEstLogo jsCeil
    norm_num [Prod.ext_iff, Int.ceil_eq_iff]

/-- Concrete settings used to probe the cache fingerprint: the default
`watermarkSettings` of `src/app.js` lines 631-684. -/
def sampleSettings : WatermarkSettings :=
  { type := "text", text := "© Your Watermark", fontSize := 24
    fontFamily := "Arial", logoScale := JSNum.num 20
    textColor := "#ffffff", overlayEffect := "none"
    textEffects :=
      { shadow := false, shadowColor := "#000000", shadowBlur := 6
        shadowOffsetX := 2, shadowOffsetY := 2
        outline := false, outlineColor := "#000000", outlineThickness := 2
        glow := false, glowColor := "#ffffff", glowBlur := 12 }
    hasLogo := false, logoW := 0, logoH := 0 }

/-- Settings `sampleSettings` with the shadow text effect toggled on — an
appearance-affecting change. -/
def sampleSettingsShadow : WatermarkSettings :=
  { sampleSettings with
    textEffects := { sampleSettings.textEffects with shadow := true } }

/-- C2: the cache fingerprint fails the claim in both directions.
Toggling the shadow text effect changes the rendered appearance
(`applyTextEffects` state) but produces the *same* fingerprint, so the
stale bitmap is reused; and because the fingerprint also embeds the
raw canvas width/height, canvases 810 and 820 — the same 800 bucket
under 50px quantization — get *different* fingerprints, so entries are
never shared within a bucket. -/
theorem cache_fingerprint_incomplete :
    buildCacheKey sampleSettings 800 600
      = buildCacheKey sampleSettingsShadow 800 600
    ∧ applyTextEffectsState sampleSettings.textColor sampleSettings.textEffects
      ≠ applyTextEffectsState sampleSettingsShadow.textColor
          sampleSettingsShadow.textEffects
    ∧ quantize50 810 = quantize50 820
    ∧ buildCacheKey sampleSettings 810 600
      ≠ buildCacheKey sampleSettings 820 600 := by
  refine ⟨rfl, ?_, ?_, ?_⟩
  · simp [applyTextEffectsState, sampleSettings, sampleSettingsShadow,
      CtxEffectState.mk.injEq]
  · unfold quantize50 jsRound
    norm_num [Int.floor_eq_iff]
  · simp [buildCacheKey, CacheKey.mk.injEq]

/-- Helper: unrolling the `processAllImages` fold against any starting
accumulator. -/
lemma processAllImages_foldl {α : Type} :
    ∀ (l : List (String × Except String α)) (acc : List α),
      l.foldl
        (fun processedImages r =>
          match r.2 with
          | .ok d => processedImages ++ [d]
          | .error _ => processedImages)
        acc
      = acc ++ l.filterMap (fun r => r.2.toOption) := by
  intro l
  induction l with
  | nil => intro acc; simp
  | cons hd tl ih =>
    intro acc
    rcases hd with ⟨nm, res⟩
    cases res with
    | ok d => simp [List.filterMap_cons, Except.toOption, ih]
    | error e => simp [List.filterMap_cons, Except.toOption, ih]

/-- C9: batch error isolation.  `processAllImages` visits every image
in order and returns exactly the successfully processed ones: it
equals the list of `ok` outcomes, and an erroring image in the middle
of the batch is skipped while everything before and after it is still
processed. -/
theorem batch_error_isolation {α : Type}
    (results pre post : List (String × Except String α))
    (name msg : String) :
    processAllImages results = results.filterMap (fun r => r.2.toOption)
    ∧ processAllImages (pre ++ (name, Except.error msg) :: post)
      = processAllImages pre ++ processAllImages post := by
  constructor
  · exact processAllImages_foldl results []
  · unfold processAllImages
    rw [processAllImages_foldl, processAllImages_foldl, processAllImages_foldl]
    simp [List.filterMap_append, List.filterMap_cons, Except.toOption]

/-- Helper: a doubly nested `range`/`filterMap` enumeration emits at
most `n * m` elements. -/
lemma length_range_flatMap_filterMap_le {α : Type} (n m : ℕ)
    (f : ℕ → ℕ → Option α) :
    (((List.range n).flatMap fun i =>
        (List.range m).filterMap fun j => f i j)).length ≤ n * m := by
  rw [List.length_flatMap]
  have hbound : ∀ x ∈ (List.range n).map
      (fun i => ((List.range m).filterMap fun j => f i j).length), x ≤ m := by
    intro x hx
    simp only [List.mem_map, List.mem_range] at hx
    obtain ⟨i, _, rfl⟩ := hx
    calc ((List.range m).filterMap fun j => f i j).length
        ≤ (List.range m).length := List.length_filterMap_le _ _
      _ = m := List.length_range m
  calc ((List.range n).map
        (fun i => ((List.range m).filterMap fun j => f i j).length)).sum
      ≤ ((List.range n).map
        (fun i => ((List.range m).filterMap fun j => f i j).length)).length * m :=
        List.sum_le_card_nsmul _ m hbound
    _ = n * m := by simp

/-- C5: bounded iteration.  For every canvas size, spacing, projection
and diagonal extent — including pathologically small spacings — the
grid and diagonal branches of `applyTiledPattern` emit at most
`(2 * maxTilesPerAxis + 1)² = 241²` placements. -/
theorem bounded_iteration (sx sy dx dy cosA sinA canvasWidth canvasHeight
    tiledExtent : ℚ) :
    (gridPlacements sx sy canvasWidth canvasHeight).length
      ≤ (2 * maxTilesPerAxis.toNat + 1) ^ 2
    ∧ (diagonalPlacements dx dy cosA sinA canvasWidth canvasHeight
        tiledExtent).length ≤ (2 * maxTilesPerAxis.toNat + 1) ^ 2 := by
  constructor
  · unfold gridPlacements
    dsimp only
    have hx : (gridCount canvasWidth sx).toNat ≤ 120 := by
      unfold gridCount maxTilesPerAxis; omega
    have hy : (gridCount canvasHeight sy).toNat ≤ 120 := by
      unfold gridCount maxTilesPerAxis; omega
    calc _ ≤ (gridCount canvasWidth sx).toNat * (gridCount canvasHeight sy).toNat :=
        length_range_flatMap_filterMap_le _ _ _
      _ ≤ 120 * 120 := Nat.mul_le_mul hx hy
      _ ≤ (2 * maxTilesPerAxis.toNat + 1) ^ 2 := by
          have h120 : maxTilesPerAxis.toNat = 120 := rfl
          rw [h120]; norm_num
  · unfold diagonalPlacements
    dsimp only
    have hx : (2 * diagCount tiledExtent dx + 1).toNat ≤ 241 := by
      have : diagCount tiledExtent dx ≤ 120 := by
        unfold diagCount maxTilesPerAxis; dsimp only; omega
      omega
    have hy : (2 * diagCount tiledExtent dy + 1).toNat ≤ 241 := by
      have : diagCount tiledExtent dy ≤ 120 := by
        unfold diagCount maxTilesPerAxis; dsimp only; omega
      omega
    calc _ ≤ (2 * diagCount tiledExtent dx + 1).toNat
          * (2 * diagCount tiledExtent dy + 1).toNat :=
        length_range_flatMap_filterMap_le _ _ _
      _ ≤ 241 * 241 := Nat.mul_le_mul hx hy
      _ ≤ (2 * maxTilesPerAxis.toNat + 1) ^ 2 := by
          have h120 : maxTilesPerAxis.toNat = 120 := rfl
          rw [h120]; norm_num

/-- Helper: `diagCount 50 30 = 4` (`⌈50/30⌉ + 2`, below the cap). -/
lemma diagCount_50_30 : diagCount 50 30 = 4 := by
  have hc : (⌈(50:ℚ)/30⌉ : ℤ) = 2 := by norm_num [Int.ceil_eq_iff]
  unfold diagCount maxTilesPerAxis
  dsimp only
  rw [hc]
  norm_num

/-- Helper: `diagCount 50 40 = 4` (`⌈50/40⌉ + 2`, below the cap). -/
lemma diagCount_50_40 : diagCount 50 40 = 4 := by
  have hc : (⌈(50:ℚ)/40⌉ : ℤ) = 2 := by norm_num [Int.ceil_eq_iff]
  unfold diagCount maxTilesPerAxis
  dsimp only
  rw [hc]
  norm_num

/-- C3: diagonal axis independence.  (1) Every placement emitted by the
diagonal branch has the rotated-frame form
`x = i·dx·cosθ − j·dy·sinθ + w/2`, `y = i·dx·sinθ + j·dy·cosθ + h/2`
with `|i| ≤ countX`, `|j| ≤ countY`; (2) the per-axis count is
`min(⌈diagonal/spacing⌉ + 2, 120)`; (3) the X spacing and `countX` are
unchanged when only `uiSpacingY` varies; (4) varying `uiSpacingY`
does change `countY` (instance: UI 0 vs 20 on a 40-high footprint). -/
theorem diagonal_axis_independence :
    (∀ dx dy cosA sinA canvasWidth canvasHeight tiledExtent : ℚ,
      ∀ p ∈ diagonalPlacements dx dy cosA sinA canvasWidth canvasHeight
        tiledExtent,
      ∃ i j : ℤ, |i| ≤ diagCount tiledExtent dx
        ∧ |j| ≤ diagCount tiledExtent dy
        ∧ p.1 = (i : ℚ) * dx * cosA - (j : ℚ) * dy * sinA + canvasWidth / 2
        ∧ p.2 = (i : ℚ) * dx * sinA + (j : ℚ) * dy * cosA + canvasHeight / 2)
    ∧ (∀ tiledExtent s : ℚ,
        diagCount tiledExtent s = min (⌈tiledExtent / s⌉ + 2) maxTilesPerAxis)
    ∧ (∀ contentW contentH cw ch uiX uiY uiY' tiledExtent : ℚ,
        (computePatternSpacing contentW contentH cw ch uiX uiY).1
          = (computePatternSpacing contentW contentH cw ch uiX uiY').1
        ∧ diagCount tiledExtent
            (computePatternSpacing contentW contentH cw ch uiX uiY).1
          = diagCount tiledExtent
            (computePatternSpacing contentW contentH cw ch uiX uiY').1)
    ∧ diagCount 50 (computePatternSpacingY 40 800 0)
        ≠ diagCount 50 (computePatternSpacingY 40 800 20) := by
  refine ⟨?_, ?_, ?_, ?_⟩
  · intro dx dy cosA sinA w h diag p hp
    unfold diagonalPlacements at hp
    simp only [List.mem_flatMap, List.mem_filterMap, List.mem_range] at hp
    obtain ⟨ii, hii, jj, hjj, heq⟩ := hp
    split at heq
    case isFalse => exact absurd heq (by simp)
    case isTrue hcond =>
      obtain rfl : ((((ii : ℤ) - diagCount diag dx : ℤ) : ℚ) * dx * cosA
          - (((jj : ℤ) - diagCount diag dy : ℤ) : ℚ) * dy * sinA + w / 2,
          (((ii : ℤ) - diagCount diag dx : ℤ) : ℚ) * dx * sinA
          + (((jj : ℤ) - diagCount diag dy : ℤ) : ℚ) * dy * cosA + h / 2) = p :=
        Option.some.inj heq
      refine ⟨(ii : ℤ) - diagCount diag dx, (jj : ℤ) - diagCount diag dy,
        ?_, ?_, rfl, rfl⟩
      · rw [abs_le]; omega
      · rw [abs_le]; omega
  · intro diag s
    unfold diagCount maxTilesPerAxis
    dsimp only
    split <;> omega
  · intro contentW contentH cw ch uiX uiY uiY' diag
    exact ⟨rfl, rfl⟩
  · have e0 : computePatternSpacingY 40 800 0 = 40 := by
      unfold computePatternSpacingY convertSpacingToPixels
      norm_num
    have e20 : computePatternSpacingY 40 800 20 = 540 := by
      unfold computePatternSpacingY convertSpacingToPixels minGap jsRound
      norm_num [Int.floor_eq_iff]
    have hc540 : diagCount 50 540 = 3 := by
      have hc : (⌈(50:ℚ)/540⌉ : ℤ) = 1 := by norm_num [Int.ceil_eq_iff]
      unfold diagCount maxTilesPerAxis
      dsimp only
      rw [hc]
      norm_num
    rw [e0, e20, diagCount_50_40, hc540]
    norm_num

/-- C3 (witness): the placement-form clause at the concrete input
`dx = 30, dy = 40, cosθ = 3/5, sinθ = 4/5`, canvas 30×40 (diagonal 50):
the emitted placement `(15, 20)` (the center tile) has the stated
rotated-frame form. -/
theorem diagonal_axis_independence_witness :
    ((15:ℚ), (20:ℚ)) ∈ diagonalPlacements 30 40 (3/5) (4/5) 30 40 50
    ∧ ∃ i j : ℤ, |i| ≤ diagCount 50 30 ∧ |j| ≤ diagCount 50 40
      ∧ ((15:ℚ), (20:ℚ)).1 = (i:ℚ) * 30 * (3/5) - (j:ℚ) * 40 * (4/5) + 30/2
      ∧ ((15:ℚ), (20:ℚ)).2 = (i:ℚ) * 30 * (4/5) + (j:ℚ) * 40 * (3/5) + 40/2 := by
  have hmem : ((15:ℚ), (20:ℚ)) ∈ diagonalPlacements 30 40 (3/5) (4/5) 30 40 50 := by
    unfold diagonalPlacements
    rw [diagCount_50_30, diagCount_50_40]
    refine List.mem_flatMap.mpr ⟨4, List.mem_range.mpr (by norm_num), ?_⟩
    refine List.mem_filterMap.mpr ⟨4, List.mem_range.mpr (by norm_num), ?_⟩
    rw [if_pos (by norm_num)]
    norm_num
  exact ⟨hmem,
    diagonal_axis_independence.1 30 40 (3/5) (4/5) 30 40 50 (15, 20) hmem⟩

end Watermark
